import Mathlib

/-!
Shallow embedding of the badminton-registration backend
(`registrations/models.py` and `registrations/views.py`): the event-window
classifier (`Event.is_ended`, `Event.is_upcoming`), the association-window
computation and registration filtering used by the registration listing and
CSV export endpoints, the lifecycle-filtered event listing, the
cleanup-ended-events operation and the soft-delete image endpoint.

Calendar dates are day ordinals (`Nat`, days since 0000-03-01 proleptic
Gregorian), so Python's `date` comparison is `Nat` comparison and "the next
day" is `+ 1`.  Timezone-aware instants are wall-clock microseconds in the
configured timezone (`Nat`); `django.utils.timezone.make_aware` with the
fixed configured zone is a monotone bijection between naive wall-clock
values and instants, so comparisons of aware datetimes are comparisons of
these numbers.
-/

namespace Badmin

/-- Microseconds in one day. -/
def usPerDay : Nat := 86400000000

/-- `y-m-d` to day ordinal (Hinnant's `days_from_civil`, epoch 0000-03-01,
kept in `Nat`). Used to write concrete calendar dates in scenarios. -/
def daysFromCivil (y m d : Nat) : Nat :=
  let yy := if m ≤ 2 then y - 1 else y
  let era := yy / 400
  let yoe := yy % 400
  let mp := (m + 9) % 12
  let doy := (153 * mp + 2) / 5 + d - 1
  let doe := yoe * 365 + yoe / 4 - yoe / 100 + doy
  era * 146097 + doe

/-- Day ordinal back to `(y, m, d)` (Hinnant's `civil_from_days`). -/
def civilFromDays (z : Nat) : Nat × Nat × Nat :=
  let era := z / 146097
  let doe := z % 146097
  let yoe := (doe - doe / 1460 + doe / 36524 - doe / 146096) / 365
  let doy := doe - (365 * yoe + yoe / 4 - yoe / 100)
  let mp := (5 * doy + 2) / 153
  let d := doy - (153 * mp + 2) / 5 + 1
  let m := if mp < 10 then mp + 3 else mp - 9
  (if m ≤ 2 then yoe + era * 400 + 1 else yoe + era * 400, m, d)

/-- `datetime.combine(d, time.min)` — start-of-day instant. -/
def startOfDay (d : Nat) : Nat := d * usPerDay

/-- `datetime.combine(d, time.max)` — end-of-day instant, 23:59:59.999999. -/
def endOfDay (d : Nat) : Nat := d * usPerDay + (usPerDay - 1)

/-- Instant at `h:mi:s` (whole seconds) on day `d`. -/
def atTime (d : Nat) (h mi s : Nat) : Nat :=
  d * usPerDay + (h * 3600 + mi * 60 + s) * 1000000

/-- Two-digit zero padding, as `strftime` `%H`/`%M`/`%S`/`%m`/`%d`. -/
def pad2 (n : Nat) : String := if n < 10 then "0" ++ toString n else toString n

/-- Four-digit zero padding, as `strftime` `%Y`. -/
def pad4 (n : Nat) : String :=
  if n < 10 then "000" ++ toString n
  else if n < 100 then "00" ++ toString n
  else if n < 1000 then "0" ++ toString n
  else toString n

/-- `date.strftime('%Y-%m-%d')`. -/
def formatDate (d : Nat) : String :=
  let c := civilFromDays d
  pad4 c.1 ++ "-" ++ pad2 c.2.1 ++ "-" ++ pad2 c.2.2

/-- `datetime.strftime('%Y-%m-%d %H:%M:%S')`. -/
def formatDateTime (t : Nat) : String :=
  let secs := t % usPerDay / 1000000
  formatDate (t / usPerDay) ++ " " ++ pad2 (secs / 3600) ++ ":" ++
    pad2 (secs % 3600 / 60) ++ ":" ++ pad2 (secs % 60)

/-- `registrations.models.Registration`: fields read by the operations under
verification. `document` is the binary blob (`None`, or a byte list which may
be empty — Python truthiness distinguishes the two). `created_at` is the
timezone-aware creation instant (`auto_now_add`, never null). -/
structure Registration where
  id : Nat
  name : String
  age : Option Nat
  dob : Option Nat
  gender : String
  state : String
  district : String
  level : String
  email : String
  phone_no : String
  address : String
  document : Option (List Nat)
  created_at : Nat
deriving DecidableEq

/-- `registrations.models.Event`: the date fields and identity read by the
operations under verification; `registration_from`, `registration_to` and
`event_from` are non-null in the schema, `event_to` is nullable. The
tournament-description fields (place, fees, prizes, categories, rules) are
not read by any operation modelled here and are omitted. -/
structure Event where
  id : Nat
  event_name : String
  registration_from : Nat
  registration_to : Nat
  event_from : Nat
  event_to : Option Nat
  created_at : Nat
deriving DecidableEq

/-- `Event.is_ended` (models.py lines 89-97): `if self.event_to: return
self.event_to < today`; else `return self.event_to is None and
self.event_from < today` (in the else branch `event_to is None` holds, so the
conjunction is `event_from < today`). A present `date` is always truthy in
Python, so the `if` tests presence. `today` is `timezone.now().date()`,
passed explicitly here. -/
def Event.is_ended (e : Event) (today : Nat) : Bool :=
  match e.event_to with
  | some t => decide (t < today)
  | none => true && decide (e.event_from < today)

/-- `Event.is_upcoming` (models.py lines 99-101): `return not self.is_ended()`. -/
def Event.is_upcoming (e : Event) (today : Nat) : Bool :=
  !(e.is_ended today)

/-- The boundary date of an event: `event_to` when present, else `event_from`. -/
def Event.boundaryDate (e : Event) : Nat :=
  e.event_to.getD e.event_from

/-- views.py lines 62-63 and 535-536: `start_date = event.registration_from;
end_date = event.event_to if event.event_to else event.event_from`. -/
def computeAssociationWindow (e : Event) : Nat × Nat :=
  (e.registration_from, match e.event_to with | some t => t | none => e.event_from)

/-- views.py lines 71-74 and 544-547: keep registrations with
`created_at >= start-of-day(start)` and `created_at <= end-of-day(end)`
(both bounds made timezone-aware in the configured zone). -/
def filterRegistrationsInWindow (regs : List Registration) (w : Nat × Nat) :
    List Registration :=
  regs.filter fun r =>
    decide (startOfDay w.1 ≤ r.created_at) && decide (r.created_at ≤ endOfDay w.2)

/-- Insert `x` into `l` before the first element `y` with `le x y`. -/
def insertLe {α : Type} (le : α → α → Bool) (x : α) : List α → List α
  | [] => [x]
  | y :: ys => if le x y then x :: y :: ys else y :: insertLe le x ys

/-- Insertion sort by the boolean relation `le`; models the ordering a
database `ORDER BY` clause imposes on a result set. -/
def sortLe {α : Type} (le : α → α → Bool) : List α → List α
  | [] => []
  | x :: xs => insertLe le x (sortLe le xs)

/-- `ORDER BY created_at DESC` on registrations (`Meta.ordering =
['-created_at']` and `.order_by('-created_at')`). -/
def descCreatedR (a b : Registration) : Bool := decide (b.created_at ≤ a.created_at)

/-- `ORDER BY created_at DESC` on events (`Meta.ordering = ['-created_at']`
and `.order_by('-created_at')`). -/
def descCreatedE (a b : Event) : Bool := decide (b.created_at ≤ a.created_at)

/-- Sort key for a nullable `event_to` under descending order: SQL `NULL`
sorts below every date, so `none` maps to `0` and `some t` to `t + 1`. -/
def eventToKey (e : Event) : Nat :=
  match e.event_to with
  | some t => t + 1
  | none => 0

/-- `.order_by('-event_from', '-event_to')`: descending lexicographic on
`(event_from, event_to)` with `NULL` smallest. -/
def descCompleted (a b : Event) : Bool :=
  decide (b.event_from < a.event_from) ||
    (decide (b.event_from = a.event_from) && decide (eventToKey b ≤ eventToKey a))

/-- `Event.objects.get(id=event_id)`: `some` the matching event, `none` when
`Event.DoesNotExist` is raised. -/
def findEvent (events : List Event) (eid : Nat) : Option Event :=
  events.find? fun e => e.id == eid

/-- `Registration.objects.get(id=pk)` for the image endpoints. -/
def findRegistration (regs : List Registration) (pk : Nat) : Option Registration :=
  regs.find? fun r => r.id == pk

/-- Python truthiness of `registration.document`: `False` for `None` and for
an empty byte string (`if not registration.document`, `'Yes' if reg.document
else 'No'`). -/
def hasDocument (r : Registration) : Bool :=
  match r.document with
  | some d => !d.isEmpty
  | none => false

/-- `RegistrationViewSet.get_queryset` (views.py lines 48-78): the base
queryset (`Meta.ordering = ['-created_at']`), filtered to the event's
association window when `event_id` names a stored event; on
`Event.DoesNotExist` the `except ... pass` leaves the queryset unfiltered.
`none` stands for an absent or empty `event_id` query parameter. -/
def registrationListing (events : List Event) (regs : List Registration)
    (eventId : Option Nat) : List Registration :=
  match eventId with
  | none => sortLe descCreatedR regs
  | some eid =>
    match findEvent events eid with
    | none => sortLe descCreatedR regs
    | some ev =>
      filterRegistrationsInWindow (sortLe descCreatedR regs)
        (computeAssociationWindow ev)

/-- An `Event` as an arbitrary Python object, every field possibly `None`
irrespective of the storage schema; used to examine what the view code does
when a required field is absent. -/
structure RawEvent where
  registration_from : Option Nat
  event_from : Option Nat
  event_to : Option Nat
deriving DecidableEq

/-- A Python runtime error escaping the view code. -/
inductive PyError
  | typeError
deriving DecidableEq

/-- The window computation of views.py lines 62-69 run on a raw Python
event: `start_date = event.registration_from`; `end_date = event.event_to if
event.event_to else event.event_from`; then `datetime.combine(start_date,
time.min)` and `datetime.combine(end_date, time.max)`, each of which raises
`TypeError` when handed `None`. There is no `MissingRequiredField` guard
anywhere in the code. -/
def rawAssociationWindow (e : RawEvent) : Except PyError (Nat × Nat) :=
  let startDate := e.registration_from
  let endDate := match e.event_to with
    | some t => some t
    | none => e.event_from
  match startDate with
  | none => Except.error PyError.typeError
  | some s =>
    match endDate with
    | none => Except.error PyError.typeError
    | some en => Except.ok (startOfDay s, endOfDay en)

/-- The view of a schema-valid stored `Event` as a raw Python object. -/
def Event.toRaw (e : Event) : RawEvent :=
  ⟨some e.registration_from, some e.event_from, e.event_to⟩

/-- CSV header of `ExportRegistrationsCsvView.get` (views.py lines 567-570). -/
def csvHeader : List String :=
  ["ID", "Name", "Age", "Date of Birth", "Gender", "State", "District",
   "Level", "Email", "Phone Number", "Address", "Document", "Created At"]

/-- One CSV data row (views.py lines 572-587). `reg.name or ''` is the name
itself (an empty string stays empty); `reg.age or ''` renders `None` — and,
by Python truthiness, `0` — as the empty string; `dob` renders as
`%Y-%m-%d` or empty; the document column is the presence flag; `created_at`
renders as `%Y-%m-%d %H:%M:%S` (it is never null). -/
def registrationCsvRow (r : Registration) : List String :=
  [toString r.id,
   r.name,
   (match r.age with
    | some a => if a = 0 then "" else toString a
    | none => ""),
   (match r.dob with
    | some d => formatDate d
    | none => ""),
   r.gender,
   r.state,
   r.district,
   r.level,
   r.email,
   r.phone_no,
   r.address,
   (if hasDocument r then "Yes" else "No"),
   formatDateTime r.created_at]

/-- `event.event_name.replace(' ', '_')`. -/
def underscoreName (s : String) : String :=
  String.map (fun c => if c = ' ' then '_' else c) s

/-- Attachment filename of the CSV export (views.py lines 554-562): the
event-specific name when the id resolves, `"registrations.csv"` when the id
is absent or resolves to no event. -/
def exportFilename (events : List Event) (eventId : Option Nat) : String :=
  match eventId with
  | none => "registrations.csv"
  | some eid =>
    match findEvent events eid with
    | none => "registrations.csv"
    | some ev =>
      "registrations_" ++ underscoreName ev.event_name ++ "_" ++
        toString eid ++ ".csv"

/-- A rendered CSV response: attachment filename and rows of cells. -/
structure CsvExport where
  filename : String
  rows : List (List String)
deriving DecidableEq

/-- `ExportRegistrationsCsvView.get` (views.py lines 525-589): filter by the
event window when `event_id` resolves (`except Event.DoesNotExist: pass`
otherwise), order by `-created_at`, then write the header and one row per
registration. -/
def exportRegistrationsCsv (events : List Event) (regs : List Registration)
    (eventId : Option Nat) : CsvExport :=
  let filtered :=
    match eventId with
    | none => regs
    | some eid =>
      match findEvent events eid with
      | none => regs
      | some ev => filterRegistrationsInWindow regs (computeAssociationWindow ev)
  let ordered := sortLe descCreatedR filtered
  ⟨exportFilename events eventId, csvHeader :: ordered.map registrationCsvRow⟩

/-- The `upcoming=true` queryset predicate (views.py lines 158-161):
`Q(event_to__gte=today) | Q(event_to__isnull=True, event_from__gte=today)`;
a SQL comparison against `NULL` is not satisfied. -/
def upcomingQ (today : Nat) (e : Event) : Bool :=
  (match e.event_to with
   | some t => decide (today ≤ t)
   | none => false) ||
  (e.event_to.isNone && decide (today ≤ e.event_from))

/-- The `completed=true` and cleanup queryset predicate (views.py lines
166-168 and 431-433): `Q(event_to__lt=today) | Q(event_to__isnull=True,
event_from__lt=today)`. -/
def endedQ (today : Nat) (e : Event) : Bool :=
  (match e.event_to with
   | some t => decide (t < today)
   | none => false) ||
  (e.event_to.isNone && decide (e.event_from < today))

/-- `EventViewSet.get_queryset` (views.py lines 143-172): `upcoming=true`
filters by the upcoming predicate and orders by `-created_at`;
otherwise `completed=true` filters by the ended predicate and orders by
`-event_from, -event_to`; otherwise all events in the base `-created_at`
order. -/
def eventListing (events : List Event) (today : Nat)
    (upcoming completed : Bool) : List Event :=
  if upcoming then
    sortLe descCreatedE (events.filter fun e => upcomingQ today e)
  else if completed then
    sortLe descCompleted (events.filter fun e => endedQ today e)
  else
    sortLe descCreatedE events

/-- `CleanupEndedEventsView.delete` (views.py lines 427-457): delete the
events matching the ended predicate; the `delete_registrations` flag is read
but its branch is `pass`, so registrations are untouched either way. Returns
the surviving events and the (unchanged) registrations. -/
def cleanupEndedEvents (events : List Event) (regs : List Registration)
    (today : Nat) (deleteRegistrations : Bool) :
    List Event × List Registration :=
  let remaining := events.filter fun e => !endedQ today e
  if deleteRegistrations then
    (remaining, regs)
  else
    (remaining, regs)

/-- Outcome of `DeleteImageFileView.delete`. -/
inductive DeleteImageOutcome
  | notFoundRegistration
  | notFoundDocument
  | success (sizeBytes : Nat)
deriving DecidableEq

/-- `DeleteImageFileView.delete` (views.py lines 330-347): 404 when the
registration does not exist or its document is falsy; otherwise a success
acknowledgement carrying the document size. No store mutation on any path,
so the registration list is returned as given. -/
def deleteImageFile (regs : List Registration) (pk : Nat) :
    DeleteImageOutcome × List Registration :=
  match findRegistration regs pk with
  | none => (DeleteImageOutcome.notFoundRegistration, regs)
  | some r =>
    if !hasDocument r then
      (DeleteImageOutcome.notFoundDocument, regs)
    else
      (DeleteImageOutcome.success (r.document.getD []).length, regs)

theorem insertLe_perm {α : Type} (le : α → α → Bool) (x : α) (l : List α) :
    (insertLe le x l).Perm (x :: l) := by
  induction l with
  | nil => exact List.Perm.refl _
  | cons y ys ih =>
    by_cases h : le x y = true
    · simp [insertLe, h]
    · simp only [insertLe, h]
      rw [if_neg]
      · exact ((ih.cons y).trans (List.Perm.swap x y ys))
      · simp [h]

theorem sortLe_perm {α : Type} (le : α → α → Bool) (l : List α) :
    (sortLe le l).Perm l := by
  induction l with
  | nil => exact List.Perm.refl _
  | cons x xs ih =>
    exact (insertLe_perm le x (sortLe le xs)).trans (ih.cons x)

theorem mem_insertLe {α : Type} (le : α → α → Bool) (x a : α) (l : List α) :
    a ∈ insertLe le x l ↔ a = x ∨ a ∈ l := by
  rw [(insertLe_perm le x l).mem_iff]
  simp

theorem insertLe_pairwise {α : Type} {le : α → α → Bool}
    (htrans : ∀ a b c, le a b = true → le b c = true → le a c = true)
    (htotal : ∀ a b, le a b = true ∨ le b a = true)
    (x : α) (l : List α) (hl : List.Pairwise (fun a b => le a b = true) l) :
    List.Pairwise (fun a b => le a b = true) (insertLe le x l) := by
  induction l with
  | nil => simp [insertLe]
  | cons y ys ih =>
    rcases List.pairwise_cons.mp hl with ⟨hy, hys⟩
    by_cases h : le x y = true
    · simp only [insertLe, h, if_true]
      refine List.pairwise_cons.mpr ⟨?_, hl⟩
      intro b hb
      rcases List.mem_cons.mp hb with hbe | hbm
      · rw [hbe]
        exact h
      · exact htrans x y b h (hy b hbm)
    · simp only [insertLe, h]
      rw [if_neg (by simp [h])]
      refine List.pairwise_cons.mpr ⟨?_, ih hys⟩
      intro b hb
      rcases (mem_insertLe le x b ys).mp hb with hbe | hbm
      · rw [hbe]
        rcases htotal x y with hxy | hyx
        · exact absurd hxy h
        · exact hyx
      · exact hy b hbm

theorem sortLe_pairwise {α : Type} {le : α → α → Bool}
    (htrans : ∀ a b c, le a b = true → le b c = true → le a c = true)
    (htotal : ∀ a b, le a b = true ∨ le b a = true)
    (l : List α) :
    List.Pairwise (fun a b => le a b = true) (sortLe le l) := by
  induction l with
  | nil => simp [sortLe]
  | cons x xs ih => exact insertLe_pairwise htrans htotal x (sortLe le xs) ih

theorem decide_le_eq_not_lt (a b : Nat) : decide (a ≤ b) = !decide (b < a) := by
  by_cases h : a ≤ b
  · simp [h, Nat.not_lt.mpr h]
  · simp [h, Nat.lt_of_not_le h]

theorem upcomingQ_eq_is_upcoming (today : Nat) (e : Event) :
    upcomingQ today e = e.is_upcoming today := by
  rcases e with ⟨i, n, rf, rt, ef, eto, ca⟩
  cases eto <;>
    simp [upcomingQ, Event.is_upcoming, Event.is_ended, decide_le_eq_not_lt]

theorem endedQ_eq_is_ended (today : Nat) (e : Event) :
    endedQ today e = e.is_ended today := by
  rcases e with ⟨i, n, rf, rt, ef, eto, ca⟩
  cases eto <;> simp [endedQ, Event.is_ended]

theorem descCreatedE_trans (a b c : Event) :
    descCreatedE a b = true → descCreatedE b c = true → descCreatedE a c = true := by
  simp only [descCreatedE, decide_eq_true_eq]
  omega

theorem descCreatedE_total (a b : Event) :
    descCreatedE a b = true ∨ descCreatedE b a = true := by
  simp only [descCreatedE, decide_eq_true_eq]
  omega

theorem descCreatedR_trans (a b c : Registration) :
    descCreatedR a b = true → descCreatedR b c = true → descCreatedR a c = true := by
  simp only [descCreatedR, decide_eq_true_eq]
  omega

theorem descCreatedR_total (a b : Registration) :
    descCreatedR a b = true ∨ descCreatedR b a = true := by
  simp only [descCreatedR, decide_eq_true_eq]
  omega

theorem descCompleted_iff (a b : Event) :
    descCompleted a b = true ↔
      (b.event_from < a.event_from ∨
        (b.event_from = a.event_from ∧ eventToKey b ≤ eventToKey a)) := by
  simp [descCompleted]

theorem descCompleted_trans (a b c : Event) :
    descCompleted a b = true → descCompleted b c = true → descCompleted a c = true := by
  simp only [descCompleted_iff]
  omega

theorem descCompleted_total (a b : Event) :
    descCompleted a b = true ∨ descCompleted b a = true := by
  simp only [descCompleted_iff]
  omega

/-- A concrete event used in scenario witnesses: registrations open
2024-01-01, event runs 2024-01-10 to 2024-01-12 (spec scenario). -/
def evScenario : Event :=
  ⟨1, "Winter Open", daysFromCivil 2024 1 1, daysFromCivil 2024 1 8,
   daysFromCivil 2024 1 10, some (daysFromCivil 2024 1 12), 5⟩

/-- A concrete event without an `event_to`, starting 2024-02-01 (spec
scenario), already ended relative to 2024-02-02. -/
def evOpenEnded : Event :=
  ⟨2, "Spring Trials", daysFromCivil 2024 1 20, daysFromCivil 2024 1 31,
   daysFromCivil 2024 2 1, none, 9⟩

/-- A registration created at exactly 2024-01-12 23:59:59 with no `dob` and
no document. -/
def regEdge : Registration :=
  ⟨2, "Edge Case", none, none, "female", "Kerala", "Ernakulam", "State",
   "edge@example.com", "9999999999", "12 Court Road", none,
   atTime (daysFromCivil 2024 1 12) 23 59 59⟩

/-- A registration created at 2024-01-13 00:00:00, one day past the window
end. -/
def regAfter : Registration :=
  ⟨3, "Too Late", some 21, some (daysFromCivil 2003 5 17), "male", "Kerala",
   "Kollam", "District", "late@example.com", "8888888888", "5 Net Lane",
   some [255, 216, 255], startOfDay (daysFromCivil 2024 1 12 + 1)⟩

/-- C1: `isEnded` returns `event_to < today` when `event_to` is present and
`event_from < today` otherwise; at the boundary date itself it is `false`,
and the day after it is `true`. -/
theorem C1_isEnded_rule (e : Event) (today : Nat) :
    (e.is_ended today = true ↔
      (match e.event_to with
       | some t => t < today
       | none => e.event_from < today)) ∧
    e.is_ended e.boundaryDate = false ∧
    e.is_ended (e.boundaryDate + 1) = true := by
  rcases e with ⟨i, n, rf, rt, ef, eto, ca⟩
  cases eto <;> simp [Event.is_ended, Event.boundaryDate]

theorem C1_isEnded_rule_witness :
    evOpenEnded.is_ended (daysFromCivil 2024 2 1) = false ∧
    evOpenEnded.is_ended (daysFromCivil 2024 2 2) = true := by
  have h := C1_isEnded_rule evOpenEnded (daysFromCivil 2024 2 1)
  have hb : evOpenEnded.boundaryDate = daysFromCivil 2024 2 1 := by decide
  have hb1 : evOpenEnded.boundaryDate + 1 = daysFromCivil 2024 2 2 := by decide
  exact ⟨hb ▸ h.2.1, hb1 ▸ h.2.2⟩

/-- C5: `isUpcoming` is the negation of `isEnded`, so for every event and
reference date exactly one of the two predicates holds. -/
theorem C5_partition (e : Event) (today : Nat) :
    e.is_upcoming today = !(e.is_ended today) ∧
    (e.is_upcoming today = true ↔ ¬(e.is_ended today = true)) ∧
    ((e.is_upcoming today = true ∧ e.is_ended today = false) ∨
     (e.is_upcoming today = false ∧ e.is_ended today = true)) := by
  cases h : e.is_ended today <;> simp [Event.is_upcoming, h]

theorem C5_partition_witness :
    evScenario.is_upcoming (daysFromCivil 2024 1 12) =
      !(evScenario.is_ended (daysFromCivil 2024 1 12)) ∧
    evScenario.is_upcoming (daysFromCivil 2024 1 12) = true := by
  exact ⟨(C5_partition evScenario (daysFromCivil 2024 1 12)).1, by decide⟩

/-- C4: the association window is `(registration_from, event_to)` when
`event_to` is present and `(registration_from, event_from)` otherwise, and
the computation is deterministic: repeated calls on the same event agree. -/
theorem C4_window (e : Event) :
    (computeAssociationWindow e).1 = e.registration_from ∧
    (∀ t, e.event_to = some t → (computeAssociationWindow e).2 = t) ∧
    (e.event_to = none → (computeAssociationWindow e).2 = e.event_from) ∧
    (∀ w1 w2, w1 = computeAssociationWindow e → w2 = computeAssociationWindow e →
      w1 = w2) := by
  refine ⟨rfl, ?_, ?_, ?_⟩
  · intro t ht
    simp [computeAssociationWindow, ht]
  · intro ht
    simp [computeAssociationWindow, ht]
  · intro w1 w2 h1 h2
    rw [h1, h2]

theorem C4_window_witness :
    evScenario.event_to = some (daysFromCivil 2024 1 12) ∧
    (computeAssociationWindow evScenario).1 = daysFromCivil 2024 1 1 ∧
    (computeAssociationWindow evScenario).2 = daysFromCivil 2024 1 12 ∧
    evOpenEnded.event_to = none ∧
    (computeAssociationWindow evOpenEnded).2 = daysFromCivil 2024 2 1 := by
  exact ⟨rfl, (C4_window evScenario).1, (C4_window evScenario).2.1 _ rfl,
    rfl, (C4_window evOpenEnded).2.2.1 rfl⟩

/-- C2: filtering registrations to a window `(start, end)` keeps exactly
those created in `[start 00:00:00, end 23:59:59.999999]`; a registration
created at exactly `end` 23:59:59 is kept, one created at `end + 1 day`
00:00:00 is dropped. -/
theorem C2_filter_window (regs : List Registration) (s en : Nat)
    (r : Registration) :
    (r ∈ filterRegistrationsInWindow regs (s, en) ↔
      r ∈ regs ∧ startOfDay s ≤ r.created_at ∧ r.created_at ≤ endOfDay en) ∧
    (r ∈ regs → r.created_at = atTime en 23 59 59 →
      startOfDay s ≤ r.created_at →
      r ∈ filterRegistrationsInWindow regs (s, en)) ∧
    (r.created_at = startOfDay (en + 1) →
      r ∉ filterRegistrationsInWindow regs (s, en)) := by
  have hmem : r ∈ filterRegistrationsInWindow regs (s, en) ↔
      r ∈ regs ∧ startOfDay s ≤ r.created_at ∧ r.created_at ≤ endOfDay en := by
    simp [filterRegistrationsInWindow, List.mem_filter]
  refine ⟨hmem, ?_, ?_⟩
  · intro hin heq hs
    refine hmem.mpr ⟨hin, hs, ?_⟩
    rw [heq]
    simp only [atTime, endOfDay, usPerDay]
    omega
  · intro heq hin
    rcases hmem.mp hin with ⟨-, -, hub⟩
    rw [heq] at hub
    simp only [startOfDay, endOfDay, usPerDay] at hub
    omega

theorem C2_filter_window_witness :
    regEdge ∈ filterRegistrationsInWindow [regEdge, regAfter]
        (daysFromCivil 2024 1 1, daysFromCivil 2024 1 12) ∧
    regAfter ∉ filterRegistrationsInWindow [regEdge, regAfter]
        (daysFromCivil 2024 1 1, daysFromCivil 2024 1 12) := by
  refine ⟨(C2_filter_window [regEdge, regAfter] (daysFromCivil 2024 1 1)
      (daysFromCivil 2024 1 12) regEdge).2.1 (by decide) (by decide) (by decide),
    (C2_filter_window [regEdge, regAfter] (daysFromCivil 2024 1 1)
      (daysFromCivil 2024 1 12) regAfter).2.2 (by decide)⟩

/-- C3: when the event id matches no stored event, both the registration
listing and the CSV export fall back to the full unfiltered collection —
identical to the response without an event filter, with every stored
registration present. -/
theorem C3_missing_event (events : List Event) (regs : List Registration)
    (eid : Nat) (h : findEvent events eid = none) :
    registrationListing events regs (some eid) =
      registrationListing events regs none ∧
    (∀ r, r ∈ registrationListing events regs (some eid) ↔ r ∈ regs) ∧
    exportRegistrationsCsv events regs (some eid) =
      exportRegistrationsCsv events regs none := by
  refine ⟨?_, ?_, ?_⟩
  · simp [registrationListing, h]
  · intro r
    simp [registrationListing, h, (sortLe_perm descCreatedR regs).mem_iff]
  · simp [exportRegistrationsCsv, exportFilename, h]

theorem C3_missing_event_witness :
    findEvent [evScenario, evOpenEnded] 999 = none ∧
    registrationListing [evScenario, evOpenEnded] [regEdge, regAfter] (some 999) =
      registrationListing [evScenario, evOpenEnded] [regEdge, regAfter] none ∧
    regAfter ∈ registrationListing [evScenario, evOpenEnded] [regEdge, regAfter]
      (some 999) ∧
    exportRegistrationsCsv [evScenario, evOpenEnded] [regEdge, regAfter] (some 999) =
      exportRegistrationsCsv [evScenario, evOpenEnded] [regEdge, regAfter] none := by
  refine ⟨by decide, (C3_missing_event _ _ 999 (by decide)).1,
    ((C3_missing_event [evScenario, evOpenEnded] [regEdge, regAfter] 999
      (by decide)).2.1 regAfter).mpr (by decide),
    (C3_missing_event _ _ 999 (by decide)).2.2⟩

/-- A raw Python event missing `registration_from` (event dates present). -/
def rawMissingRegistrationFrom : RawEvent :=
  ⟨none, some (daysFromCivil 2024 1 10), none⟩

/-- A raw Python event missing both `event_to` and `event_from`. -/
def rawMissingEventDates : RawEvent :=
  ⟨some (daysFromCivil 2024 1 1), none, none⟩

/-- C6 (what the code actually does): on an event missing
`registration_from`, or missing both `event_to` and `event_from`, the view
code raises a `TypeError` from `datetime.combine` — there is no
`MissingRequiredField` error anywhere in the code; and on every schema-valid
stored event (required fields non-null) the window computation succeeds, so
the guarded condition never arises through the endpoints. -/
theorem C6_no_missing_field_guard :
    rawAssociationWindow rawMissingRegistrationFrom =
      Except.error PyError.typeError ∧
    rawAssociationWindow rawMissingEventDates =
      Except.error PyError.typeError ∧
    (∀ e : Event, rawAssociationWindow e.toRaw =
      Except.ok (startOfDay (computeAssociationWindow e).1,
        endOfDay (computeAssociationWindow e).2)) := by
  refine ⟨rfl, rfl, ?_⟩
  intro e
  rcases e with ⟨i, n, rf, rt, ef, eto, ca⟩
  cases eto <;> rfl

/-- C7: the event listing returns, for `upcoming`, exactly the events where
`isUpcoming` holds in descending creation order; for `completed`, exactly
the events where `isEnded` holds ordered by descending `event_from` then
descending `event_to`; and with no flag, all events in descending creation
order. -/
theorem C7_event_listing (events : List Event) (today : Nat) (b : Bool) :
    ((eventListing events today true b).Perm
        (events.filter fun e => e.is_upcoming today) ∧
      List.Pairwise (fun a c => c.created_at ≤ a.created_at)
        (eventListing events today true b)) ∧
    ((eventListing events today false true).Perm
        (events.filter fun e => e.is_ended today) ∧
      List.Pairwise (fun a c => c.event_from < a.event_from ∨
          (c.event_from = a.event_from ∧ eventToKey c ≤ eventToKey a))
        (eventListing events today false true)) ∧
    ((eventListing events today false false).Perm events ∧
      List.Pairwise (fun a c => c.created_at ≤ a.created_at)
        (eventListing events today false false)) := by
  have hfu : (events.filter fun e => upcomingQ today e) =
      (events.filter fun e => e.is_upcoming today) :=
    List.filter_congr fun e _ => upcomingQ_eq_is_upcoming today e
  have hfe : (events.filter fun e => endedQ today e) =
      (events.filter fun e => e.is_ended today) :=
    List.filter_congr fun e _ => endedQ_eq_is_ended today e
  refine ⟨⟨?_, ?_⟩, ⟨?_, ?_⟩, ⟨?_, ?_⟩⟩
  · simpa [eventListing, hfu] using
      sortLe_perm descCreatedE (events.filter fun e => upcomingQ today e)
  · have := sortLe_pairwise descCreatedE_trans descCreatedE_total
      (events.filter fun e => upcomingQ today e)
    simp only [eventListing, if_true]
    exact this.imp fun h => by simpa [descCreatedE] using h
  · simpa [eventListing, hfe] using
      sortLe_perm descCompleted (events.filter fun e => endedQ today e)
  · have := sortLe_pairwise descCompleted_trans descCompleted_total
      (events.filter fun e => endedQ today e)
    simp only [eventListing, if_false, Bool.false_eq_true, if_true]
    exact this.imp fun h => (descCompleted_iff _ _).mp h
  · simpa [eventListing] using sortLe_perm descCreatedE events
  · have := sortLe_pairwise descCreatedE_trans descCreatedE_total events
    simp only [eventListing, if_false, Bool.false_eq_true]
    exact this.imp fun h => by simpa [descCreatedE] using h

theorem C7_event_listing_witness :
    (eventListing [evScenario, evOpenEnded] (daysFromCivil 2024 2 1)
        true false).Perm
      ([evScenario, evOpenEnded].filter fun e =>
        e.is_upcoming (daysFromCivil 2024 2 1)) := by
  exact (C7_event_listing [evScenario, evOpenEnded]
    (daysFromCivil 2024 2 1) false).1.1

/-- C8: the CSV export writes the fixed header and one row per registration
with cells in the fixed column order; a missing `dob` renders as the empty
string; dates render as `YYYY-MM-DD` and timestamps as
`YYYY-MM-DD HH:MM:SS` (checked on concrete values). -/
theorem C8_csv_shape (events : List Event) (regs : List Registration)
    (eid : Option Nat) (r : Registration) :
    (exportRegistrationsCsv events regs eid).rows.head? = some csvHeader ∧
    csvHeader = ["ID", "Name", "Age", "Date of Birth", "Gender", "State",
      "District", "Level", "Email", "Phone Number", "Address", "Document",
      "Created At"] ∧
    (exportRegistrationsCsv events regs none).rows.length = regs.length + 1 ∧
    (registrationCsvRow r).length = 13 ∧
    (registrationCsvRow r).head? = some (toString r.id) ∧
    (registrationCsvRow r).getLast? = some (formatDateTime r.created_at) ∧
    (registrationCsvRow r).get? 11 =
      some (if hasDocument r then "Yes" else "No") ∧
    (r.dob = none → (registrationCsvRow r).get? 3 = some "") ∧
    (∀ d, r.dob = some d → (registrationCsvRow r).get? 3 = some (formatDate d)) ∧
    formatDate (daysFromCivil 2024 2 1) = "2024-02-01" ∧
    formatDateTime (atTime (daysFromCivil 2024 1 12) 23 59 59) =
      "2024-01-12 23:59:59" := by
  refine ⟨rfl, rfl, ?_, rfl, rfl, rfl, rfl, ?_, ?_, by decide, by decide⟩
  · simp only [exportRegistrationsCsv, List.length_cons, List.length_map]
    rw [(sortLe_perm descCreatedR regs).length_eq]
  · intro h
    simp [registrationCsvRow, h]
  · intro d h
    simp [registrationCsvRow, h]

theorem C8_csv_shape_witness :
    regEdge.dob = none ∧
    (registrationCsvRow regEdge).get? 3 = some "" ∧
    regAfter.dob = some (daysFromCivil 2003 5 17) ∧
    (registrationCsvRow regAfter).get? 3 = some "2003-05-17" := by
  refine ⟨rfl, (C8_csv_shape [] [] none regEdge).2.2.2.2.2.2.2.1 rfl, rfl, ?_⟩
  rw [(C8_csv_shape [] [] none regAfter).2.2.2.2.2.2.2.2.1
    (daysFromCivil 2003 5 17) rfl]
  decide

/-- C9: the cleanup operation deletes exactly the events for which `isEnded`
holds and keeps every other event; the registrations are untouched on every
path, in particular when `delete_registrations=true` is supplied. -/
theorem C9_cleanup (events : List Event) (regs : List Registration)
    (today : Nat) (b : Bool) :
    (cleanupEndedEvents events regs today b).2 = regs ∧
    (cleanupEndedEvents events regs today true).2 = regs ∧
    (cleanupEndedEvents events regs today b).1 =
      events.filter (fun e => e.is_upcoming today) ∧
    (∀ e, e ∈ events → e.is_ended today = true →
      e ∉ (cleanupEndedEvents events regs today b).1) ∧
    (∀ e, e ∈ events → e.is_ended today = false →
      e ∈ (cleanupEndedEvents events regs today b).1) := by
  have hrem : ∀ c : Bool, (cleanupEndedEvents events regs today c).1 =
      events.filter (fun e => e.is_upcoming today) := by
    intro c
    have hpt : (events.filter fun e => !endedQ today e) =
        events.filter (fun e => e.is_upcoming today) :=
      List.filter_congr fun e _ => by
        rw [endedQ_eq_is_ended]
        rfl
    cases c <;> simpa [cleanupEndedEvents] using hpt
  have hregs : ∀ c : Bool, (cleanupEndedEvents events regs today c).2 = regs := by
    intro c
    cases c <;> rfl
  refine ⟨hregs b, hregs true, hrem b, ?_, ?_⟩
  · intro e hmem hended
    rw [hrem b]
    simp [List.mem_filter, Event.is_upcoming, hended]
  · intro e hmem hlive
    rw [hrem b]
    refine List.mem_filter.mpr ⟨hmem, ?_⟩
    simp [Event.is_upcoming, hlive]

theorem C9_cleanup_witness :
    evScenario.is_ended (daysFromCivil 2024 2 2) = true ∧
    evScenario ∉ (cleanupEndedEvents [evScenario, evOpenEnded] [regEdge]
      (daysFromCivil 2024 2 2) true).1 ∧
    evOpenEnded.is_ended (daysFromCivil 2024 2 1) = false ∧
    evOpenEnded ∈ (cleanupEndedEvents [evScenario, evOpenEnded] [regEdge]
      (daysFromCivil 2024 2 1) true).1 ∧
    (cleanupEndedEvents [evScenario, evOpenEnded] [regEdge]
      (daysFromCivil 2024 2 2) true).2 = [regEdge] := by
  refine ⟨by decide, ?_, by decide, ?_, ?_⟩
  · exact (C9_cleanup [evScenario, evOpenEnded] [regEdge]
      (daysFromCivil 2024 2 2) true).2.2.2.1 evScenario (by decide) (by decide)
  · exact (C9_cleanup [evScenario, evOpenEnded] [regEdge]
      (daysFromCivil 2024 2 1) true).2.2.2.2 evOpenEnded (by decide) (by decide)
  · exact (C9_cleanup [evScenario, evOpenEnded] [regEdge]
      (daysFromCivil 2024 2 2) true).2.1

/-- C10: the delete-image endpoint never mutates the store: the
registration list is returned unchanged on every path (so the call can be
repeated), a registration with a (truthy) document gets a success
acknowledgement, and a missing registration or missing document gets a 404
outcome. -/
theorem C10_soft_delete (regs : List Registration) (pk : Nat) :
    (deleteImageFile regs pk).2 = regs ∧
    (findRegistration regs pk = none →
      (deleteImageFile regs pk).1 = DeleteImageOutcome.notFoundRegistration) ∧
    (∀ r, findRegistration regs pk = some r → hasDocument r = false →
      (deleteImageFile regs pk).1 = DeleteImageOutcome.notFoundDocument) ∧
    (∀ r, findRegistration regs pk = some r → hasDocument r = true →
      (deleteImageFile regs pk).1 =
        DeleteImageOutcome.success (r.document.getD []).length) ∧
    deleteImageFile (deleteImageFile regs pk).2 pk = deleteImageFile regs pk := by
  have hstate : (deleteImageFile regs pk).2 = regs := by
    unfold deleteImageFile
    cases h : findRegistration regs pk with
    | none => rfl
    | some r =>
      by_cases hd : hasDocument r <;> simp [hd]
  refine ⟨hstate, ?_, ?_, ?_, by rw [hstate]⟩
  · intro h
    simp [deleteImageFile, h]
  · intro r h hd
    simp [deleteImageFile, h, hd]
  · intro r h hd
    simp [deleteImageFile, h, hd]

theorem C10_soft_delete_witness :
    hasDocument regAfter = true ∧
    deleteImageFile [regEdge, regAfter] 3 =
      (DeleteImageOutcome.success 3, [regEdge, regAfter]) ∧
    deleteImageFile [regEdge, regAfter] 2 =
      (DeleteImageOutcome.notFoundDocument, [regEdge, regAfter]) ∧
    deleteImageFile [regEdge, regAfter] 77 =
      (DeleteImageOutcome.notFoundRegistration, [regEdge, regAfter]) := by
  have h3 := C10_soft_delete [regEdge, regAfter] 3
  have h2 := C10_soft_delete [regEdge, regAfter] 2
  have h77 := C10_soft_delete [regEdge, regAfter] 77
  refine ⟨by decide, ?_, ?_, ?_⟩
  · have := h3.2.2.2.1 regAfter (by decide) (by decide)
    exact Prod.ext this h3.1
  · have := h2.2.2.1 regEdge (by decide) (by decide)
    exact Prod.ext this h2.1
  · have := h77.2.1 (by decide)
    exact Prod.ext this h77.1

end Badmin
